import Mathlib

/-!
Verification of the portfolio backend's authentication / session-lifecycle
logic (token issuance, refresh rotation, revocation, validation), the
role-based authorization guard, registration, and pagination shaping.
The TypeScript services are shallowly embedded: stateful Redis calls become
explicit state passing over an association-list cache model with absolute
expiry times; fallible operations return Except; JavaScript truthiness on
strings and numbers is modelled explicitly.
-/

namespace Portfolio

/-- System role enum. Modelled from the spec: the users/enums source file is
absent from the repository snapshot; the code references SystemRole.USER and
the spec describes a role set with at least user and admin roles. -/
inductive SystemRole where
  | USER
  | ADMIN
deriving DecidableEq

/-- JWT claims carried by the tokens of this system, as used by the services
(sub, jti, iat, exp, fullName, roles). Absent claims are none. -/
structure TokenPayload where
  sub : Option String
  jti : Option String
  iat : Option Nat
  exp : Option Nat
  fullName : Option String
  roles : List SystemRole
deriving DecidableEq

/-- A compact signed token, abstracted as its decodable payload (none when
the string is malformed and jwt decode returns null) together with the
secret it was signed with. -/
structure Token where
  payload : Option TokenPayload
  secret : String
deriving DecidableEq

/-- JavaScript template-literal interpolation of a possibly-undefined
string: undefined prints as "undefined". -/
def jsStr : Option String → String
  | some s => s
  | none => "undefined"

/-- Exception classes raised by the services (NestJS HTTP exceptions plus
the JavaScript TypeError raised by a property access on null). -/
inductive ExceptionKind where
  | unauthorized
  | conflict
  | notFound
  | forbidden
  | typeError
  | internalError
deriving DecidableEq

/-- A Redis value: either a plain string or a JSON number (RedisService
stringifies non-strings on set and JSON-parses on get, so a stored number
round-trips as a number). -/
inductive RVal where
  | str (s : String)
  | num (n : Nat)
deriving DecidableEq

/-- One Redis key with its value and absolute expiry time. -/
structure RedisEntry where
  key : String
  value : RVal
  expiresAt : Nat
deriving DecidableEq

abbrev RedisState := List RedisEntry

/-- RedisService default TTL (constructor sets defaultTTL = 3600). -/
def defaultTTL : Nat := 3600

/-- Effective TTL used by RedisService.set: the code guards with
`if (ttl)`, so an absent ttl or the falsy value 0 falls back to the
default TTL. -/
def effTTL : Option Nat → Nat
  | none => defaultTTL
  | some t => if t = 0 then defaultTTL else t

/-- RedisService.set: SET key value EX ttl (default TTL when ttl is falsy);
replaces any previous entry under the same key. -/
def redisSet (st : RedisState) (now : Nat) (key : String) (value : RVal)
    (ttl : Option Nat) : RedisState :=
  ⟨key, value, now + effTTL ttl⟩ :: st.filter (fun e => e.key ≠ key)

/-- RedisService.exists: a key exists while its entry has not expired. -/
def redisExists (st : RedisState) (now : Nat) (key : String) : Bool :=
  st.any (fun e => e.key == key && decide (now < e.expiresAt))

/-- RedisService.get: the live value under a key, or none. -/
def redisGet (st : RedisState) (now : Nat) (key : String) : Option RVal :=
  (st.find? (fun e => e.key == key && decide (now < e.expiresAt))).map
    (fun e => e.value)

/-- RedisService.get of type number (JSON parse of a stored number). -/
def redisGetNum (st : RedisState) (now : Nat) (key : String) : Option Nat :=
  match redisGet st now key with
  | some (.num n) => some n
  | _ => none

/-- RedisService.delete: DEL key. -/
def redisDelete (st : RedisState) (key : String) : RedisState :=
  st.filter (fun e => e.key ≠ key)

/-- A token-lifetime configuration string such as 1d, 2h, 30m or plain
seconds, as parsed by TokenService.storeRefreshToken. -/
inductive Duration where
  | d (n : Nat)
  | h (n : Nat)
  | m (n : Nat)
  | s (n : Nat)
deriving DecidableEq

/-- Seconds denoted by a Duration, mirroring the conversion arithmetic in
TokenService.storeRefreshToken. -/
def Duration.toSeconds : Duration → Nat
  | .d n => n * 24 * 60 * 60
  | .h n => n * 60 * 60
  | .m n => n * 60
  | .s n => n

/-- Environment configuration consumed by the auth services. -/
structure Config where
  JWT_ACCESS_SECRET : String
  JWT_REFRESH_SECRET : String
  JWT_ACCESS_EXPIRES_IN : Option Nat
  JWT_REFRESH_EXPIRES_IN : Option Duration
deriving DecidableEq

/-- jwt sign: produces a token whose payload carries the given claims plus
iat = now and exp = now + expiresIn (no exp claim when expiresIn absent). -/
def jwtSign (sub jti : String) (fullName : Option String)
    (roles : List SystemRole) (secret : String) (now : Nat)
    (expiresIn : Option Nat) : Token :=
  ⟨some ⟨some sub, some jti, some now, expiresIn.map (fun t => now + t),
    fullName, roles⟩, secret⟩

/-- jwt decode: reads the payload without verification (null on malformed
input). -/
def jwtDecode (t : Token) : Option TokenPayload := t.payload

/-- jwt verify: the payload when the token decodes, the secret matches and
the exp claim (when present) lies in the future; none (an error in the
library) otherwise. -/
def jwtVerify (t : Token) (secret : String) (now : Nat) :
    Option TokenPayload :=
  match t.payload with
  | none => none
  | some p =>
    if t.secret = secret
        && (match p.exp with
            | none => true
            | some e => decide (now < e)) then
      some p
    else
      none

/-- jwt verify with ignoreExpiration (used by TokenService.logout so even
expired tokens can be revoked). -/
def jwtVerifyIgnoreExp (t : Token) (secret : String) : Option TokenPayload :=
  match t.payload with
  | none => none
  | some p => if t.secret = secret then some p else none

/-- Deterministic stand-in for uuidv4: the n-th fresh id. -/
def uuid (n : Nat) : String := "uuid-" ++ toString n

/-- Service state: the Redis store plus the fresh-uuid counter. -/
structure SysState where
  redis : RedisState
  nextId : Nat
deriving DecidableEq

/-- The access/refresh pair returned by login and refresh. -/
structure TokenResponse where
  access_token : Token
  refresh_token : Token
deriving DecidableEq

/-- A stored Identity (user document): id, display name, email, optional
salted password hash (absent for OAuth-only users), role set. -/
structure User where
  _id : String
  fullName : String
  email : String
  hashedPassword : Option String
  roles : List SystemRole
deriving DecidableEq

/-- bcrypt.hashSync modelled as a deterministic salted-digest constructor
tagged with its cost factor. -/
def bcrypt.hashSync (password : String) (rounds : Nat) : String :=
  "bcrypt$" ++ toString rounds ++ "$" ++ password

/-- bcrypt.compareSync: the candidate password matches the stored digest
(all digests in this system are minted at cost 10). -/
def bcrypt.compareSync (password hash : String) : Bool :=
  hash == bcrypt.hashSync password 10

/-- UserService.findOne with an id filter. -/
def UserService.findOne (users : List User) (id : String) : Option User :=
  users.find? (fun u => u._id == id)

/-- UserService.exists with an email filter. -/
def UserService.existsByEmail (users : List User) (email : String) : Bool :=
  users.any (fun u => u.email == email)

/-- UserService.findOneAndUpdate with an id filter, setting a new password
hash. -/
def UserService.findOneAndUpdate (users : List User) (id : String)
    (newHash : String) : List User :=
  users.map (fun u =>
    if u._id == id then { u with hashedPassword := some newHash } else u)

/-- Registration payload. -/
structure RegisterDto where
  fullName : String
  email : String
  password : String
deriving DecidableEq

/-- The register result: the created user document serialized without the
hashedPassword field. -/
structure RegisterResult where
  _id : String
  fullName : String
  email : String
  roles : List SystemRole
deriving DecidableEq

/-- AuthService.register: Conflict when the email is taken (the store is
untouched); otherwise creates the user with a bcrypt cost-10 hash of the
password and returns the document sans hashedPassword. The created
document's id is the store's next generated id. -/
def AuthService.register (users : List User) (payload : RegisterDto) :
    Except ExceptionKind RegisterResult × List User :=
  if UserService.existsByEmail users payload.email then
    (.error .conflict, users)
  else
    let user : User :=
      { _id := "id-" ++ toString users.length
        fullName := payload.fullName
        email := payload.email
        hashedPassword := some (bcrypt.hashSync payload.password 10)
        roles := [] }
    (.ok { _id := user._id, fullName := user.fullName, email := user.email,
           roles := user.roles }, users ++ [user])

/-- AuthService.revokeToken: blacklists a jti under token_blacklist with
TTL computed as max(exp - now, 0); an absent exp claim makes the JavaScript
arithmetic produce NaN, which like 0 is falsy inside RedisService.set. -/
def AuthService.revokeToken (st : RedisState) (now : Nat) (jti : String)
    (exp : Option Nat) : RedisState :=
  redisSet st now ("token_blacklist:" ++ jti) (.str "true")
    (exp.map (fun e => e - now))

/-- AuthService.logout (two-token blacklist variant): decodes both tokens
and revokes each by its jti/exp; a decode returning null makes the
subsequent jti property access raise a TypeError, which propagates. -/
def AuthService.logout (st : RedisState) (now : Nat)
    (accessToken refreshToken : Token) : Except ExceptionKind RedisState :=
  match jwtDecode accessToken with
  | none => .error .typeError
  | some pa =>
    match jwtDecode refreshToken with
    | none => .error .typeError
    | some pr =>
      .ok (AuthService.revokeToken
        (AuthService.revokeToken st now (jsStr pa.jti) pa.exp)
        now (jsStr pr.jti) pr.exp)

/-- AuthService.changePassword: NotFound when the user is missing or has no
(or an empty, hence falsy) stored hash; Unauthorized when the current
password does not match; otherwise stores the new hash and writes the
watermark token_iat_available entry with the current Unix time and the
configured access-token lifetime as TTL. -/
def AuthService.changePassword (c : Config) (users : List User)
    (st : RedisState) (now : Nat)
    (userId currentPassword newPassword : String) :
    Except ExceptionKind (List User × RedisState) :=
  match UserService.findOne users userId with
  | none => .error .notFound
  | some user =>
    match user.hashedPassword with
    | none => .error .notFound
    | some hp =>
      if hp = "" then .error .notFound
      else if ¬ bcrypt.compareSync currentPassword hp then
        .error .unauthorized
      else
        let users' :=
          UserService.findOneAndUpdate users userId
            (bcrypt.hashSync newPassword 10)
        let st' :=
          redisSet st now ("token_iat_available:" ++ userId) (.num now)
            c.JWT_ACCESS_EXPIRES_IN
        .ok (users', st')

/-- AuthService.validateToken: false when the payload is missing jti or sub
(JavaScript falsiness, so empty strings also fail), when the jti is
blacklisted, or when a truthy iat claim predates a truthy password-change
watermark for the subject; true otherwise. Catch-all returns false. -/
def AuthService.validateToken (st : RedisState) (now : Nat) (token : Token) :
    Bool :=
  match jwtDecode token with
  | none => false
  | some payload =>
    match payload.jti, payload.sub with
    | some jti, some sub =>
      if jti = "" ∨ sub = "" then false
      else if redisExists st now ("token_blacklist:" ++ jti) then false
      else
        match payload.iat with
        | none => true
        | some iat =>
          if iat = 0 then true
          else
            match redisGetNum st now ("token_iat_available:" ++ sub) with
            | none => true
            | some w => if w ≠ 0 ∧ iat < w then false else true
    | _, _ => false

/-- AuthService.validateToken in explicit state-passing form: every Redis
read returns its result together with the (unchanged) store it acted on,
making the absence of writes visible in the type. -/
def AuthService.validateTokenS (st : RedisState) (now : Nat)
    (token : Token) : Bool × RedisState :=
  match jwtDecode token with
  | none => (false, st)
  | some payload =>
    match payload.jti, payload.sub with
    | some jti, some sub =>
      if jti = "" ∨ sub = "" then (false, st)
      else
        let bl := (redisExists st now ("token_blacklist:" ++ jti), st)
        if bl.1 then (false, bl.2)
        else
          match payload.iat with
          | none => (true, bl.2)
          | some iat =>
            if iat = 0 then (true, bl.2)
            else
              let wm :=
                (redisGetNum bl.2 now ("token_iat_available:" ++ sub), bl.2)
              match wm.1 with
              | none => (true, wm.2)
              | some w =>
                if w ≠ 0 ∧ iat < w then (false, wm.2) else (true, wm.2)
    | _, _ => (false, st)

/-- AuthService.generateTokens (blacklist variant): signs an access token
carrying sub/jti/fullName/roles and a refresh token carrying sub/jti only,
each with a fresh uuid jti; no cache writes. -/
def AuthService.generateTokens (c : Config) (st : SysState) (now : Nat)
    (userId fullName : String) (roles : List SystemRole) :
    TokenResponse × SysState :=
  let accessToken :=
    jwtSign userId (uuid st.nextId) (some fullName) roles
      c.JWT_ACCESS_SECRET now c.JWT_ACCESS_EXPIRES_IN
  let refreshToken :=
    jwtSign userId (uuid (st.nextId + 1)) none []
      c.JWT_REFRESH_SECRET now (c.JWT_REFRESH_EXPIRES_IN.map Duration.toSeconds)
  (⟨accessToken, refreshToken⟩, ⟨st.redis, st.nextId + 2⟩)

/-- AuthService.refreshToken (blacklist variant): verifies the refresh
token, looks up the user, blacklists the presented jti, then mints a fresh
pair; every failure is caught and re-raised as Unauthorized. -/
def AuthService.refreshToken (c : Config) (users : List User)
    (st : SysState) (now : Nat) (refreshToken : Token) :
    Except ExceptionKind (TokenResponse × SysState) :=
  match jwtVerify refreshToken c.JWT_REFRESH_SECRET now with
  | none => .error .unauthorized
  | some payload =>
    match UserService.findOne users (jsStr payload.sub) with
    | none => .error .unauthorized
    | some user =>
      let st1 := AuthService.revokeToken st.redis now (jsStr payload.jti)
        payload.exp
      .ok (AuthService.generateTokens c ⟨st1, st.nextId⟩ now user._id
        user.fullName user.roles)

/-- TokenService.storeRefreshToken: admits a refresh jti into the allowlist
under refresh:{jti} with the user id as value and the configured refresh
lifetime (default 1d) converted to seconds as TTL. -/
def TokenService.storeRefreshToken (c : Config) (st : RedisState)
    (now : Nat) (jti userId : String) : RedisState :=
  let refreshExpiry := c.JWT_REFRESH_EXPIRES_IN.getD (Duration.d 1)
  let ttlInSeconds := refreshExpiry.toSeconds
  redisSet st now ("refresh:" ++ jti) (.str userId) (some ttlInSeconds)

/-- TokenService.generateTokens: mints fresh uuid jtis for both tokens,
signs the access token with full claims and the refresh token with a
minimal payload, and stores the refresh jti in the allowlist. -/
def TokenService.generateTokens (c : Config) (st : SysState) (now : Nat)
    (userId fullName : String) (roles : List SystemRole) :
    TokenResponse × SysState :=
  let accessTokenJti := uuid st.nextId
  let refreshTokenJti := uuid (st.nextId + 1)
  let accessToken :=
    jwtSign userId accessTokenJti (some fullName) roles
      c.JWT_ACCESS_SECRET now c.JWT_ACCESS_EXPIRES_IN
  let refreshToken :=
    jwtSign userId refreshTokenJti none []
      c.JWT_REFRESH_SECRET now (c.JWT_REFRESH_EXPIRES_IN.map Duration.toSeconds)
  let redis' := TokenService.storeRefreshToken c st.redis now
    refreshTokenJti userId
  (⟨accessToken, refreshToken⟩, ⟨redis', st.nextId + 2⟩)

/-- TokenService.validateRefreshToken: allowlist membership of a refresh
jti. -/
def TokenService.validateRefreshToken (st : RedisState) (now : Nat)
    (jti : String) : Bool :=
  redisExists st now ("refresh:" ++ jti)

/-- TokenService.revokeRefreshToken: removes a refresh jti from the
allowlist. -/
def TokenService.revokeRefreshToken (st : RedisState) (jti : String) :
    RedisState :=
  redisDelete st ("refresh:" ++ jti)

/-- TokenService.validateAccessToken: an access jti is valid while absent
from the blacklist. -/
def TokenService.validateAccessToken (st : RedisState) (now : Nat)
    (jti : String) : Bool :=
  ¬ redisExists st now ("blacklist:" ++ jti)

/-- TokenService.revokeAccessToken: blacklists an access jti with TTL
max(exp - now, 0). -/
def TokenService.revokeAccessToken (st : RedisState) (now : Nat)
    (jti : String) (exp : Nat) : RedisState :=
  redisSet st now ("blacklist:" ++ jti) (.str "true") (some (exp - now))

/-- TokenService.refreshAccessToken (allowlist variant): verifies the
refresh token, requires its jti in the allowlist (Unauthorized otherwise),
deletes that allowlist record, then mints a new pair with the fixed
placeholder display name and role set; every failure is re-raised as
Unauthorized. -/
def TokenService.refreshAccessToken (c : Config) (st : SysState)
    (now : Nat) (refreshToken : Token) :
    Except ExceptionKind (TokenResponse × SysState) :=
  match jwtVerify refreshToken c.JWT_REFRESH_SECRET now with
  | none => .error .unauthorized
  | some payload =>
    let userId := jsStr payload.sub
    let refreshTokenJti := jsStr payload.jti
    if TokenService.validateRefreshToken st.redis now refreshTokenJti then
      let fullName := "User"
      let roles := [SystemRole.USER]
      let st1 : SysState :=
        ⟨TokenService.revokeRefreshToken st.redis refreshTokenJti,
          st.nextId⟩
      .ok (TokenService.generateTokens c st1 now userId fullName roles)
    else
      .error .unauthorized

/-- TokenService.logout: verifies the refresh token ignoring expiry,
removes its jti from the allowlist and, when the exp claim is truthy and in
the future, blacklists the jti as an access token; every failure is caught
and logged, never propagated. -/
def TokenService.logout (c : Config) (st : RedisState) (now : Nat)
    (refreshToken : Token) : RedisState :=
  match jwtVerifyIgnoreExp refreshToken c.JWT_REFRESH_SECRET with
  | none => st
  | some payload =>
    let st1 := TokenService.revokeRefreshToken st (jsStr payload.jti)
    match payload.exp with
    | none => st1
    | some e =>
      if e ≠ 0 ∧ now < e then
        TokenService.revokeAccessToken st1 now (jsStr payload.jti) e
      else st1

/-- AuthService.logout in the TokenService-backed variant
(src/modules/auth/services/auth.service.ts): delegates to
TokenService.logout inside a try/catch, so the caller always sees
success. -/
def AuthServiceV2.logout (c : Config) (st : RedisState) (now : Nat)
    (refreshToken : Token) : Except ExceptionKind RedisState :=
  .ok (TokenService.logout c st now refreshToken)

/-- The request user object seen by the guard (roles may be undefined). -/
structure GuardUser where
  roles : Option (List SystemRole)
deriving DecidableEq

/-- SystemRolesGuard.canActivate: passes when no roles metadata is attached
or the required list is empty; otherwise Forbidden when the request has no
user or when no required role occurs in the user's (possibly undefined)
role list. -/
def SystemRolesGuard.canActivate (requiredRoles : Option (List SystemRole))
    (user : Option GuardUser) : Except ExceptionKind Bool :=
  match requiredRoles with
  | none => .ok true
  | some req =>
    if req.length = 0 then .ok true
    else
      match user with
      | none => .error .forbidden
      | some u =>
        let hasRequiredRole := req.any (fun role =>
          match u.roles with
          | none => false
          | some rs => rs.contains role)
        if hasRequiredRole then .ok true else .error .forbidden

/-- The required role list denoted by the guard's reflected metadata. -/
def reqRoles (requiredRoles : Option (List SystemRole)) :
    List SystemRole :=
  requiredRoles.getD []

/-- The actual role list of the request (missing user or undefined roles
denote the empty set). -/
def actualRoles : Option GuardUser → List SystemRole
  | none => []
  | some u => u.roles.getD []

/-- A mongoose PaginateResult as consumed by toPaginatedResponse; each
field may be undefined, and numeric fields may carry the falsy 0. -/
structure PaginateResult (T : Type) where
  docs : Option (List T)
  totalDocs : Option Nat
  limit : Option Nat
  totalPages : Option Nat
  page : Option Nat

/-- Pagination metadata of the standardized response. -/
structure PaginationMeta where
  totalItems : Nat
  itemCount : Nat
  itemsPerPage : Nat
  totalPages : Nat
  currentPage : Nat
deriving DecidableEq

/-- The standardized paginated response. -/
structure PaginatedResponseDto (T : Type) where
  items : List T
  meta : PaginationMeta

/-- JavaScript x || d on a possibly-undefined number: the default replaces
undefined and the falsy 0. -/
def jsOrNat (x : Option Nat) (d : Nat) : Nat :=
  match x with
  | none => d
  | some v => if v = 0 then d else v

/-- toPaginatedResponse: reshapes a mongoose paginate result, defaulting
missing/falsy fields (docs to the empty list, totalDocs and totalPages to
0, limit to 10, page to 1). -/
def toPaginatedResponse {T : Type} (result : PaginateResult T) :
    PaginatedResponseDto T :=
  { items := result.docs.getD []
    meta :=
      { totalItems := jsOrNat result.totalDocs 0
        itemCount := jsOrNat (result.docs.map List.length) 0
        itemsPerPage := jsOrNat result.limit 10
        totalPages := jsOrNat result.totalPages 0
        currentPage := jsOrNat result.page 1 } }

instance {ε α : Type} [DecidableEq ε] [DecidableEq α] :
    DecidableEq (Except ε α) := fun x y =>
  match x, y with
  | .ok a, .ok b =>
    if h : a = b then isTrue (by rw [h])
    else isFalse (fun hc => h (Except.ok.inj hc))
  | .ok _, .error _ => isFalse (fun hc => Except.noConfusion hc)
  | .error _, .ok _ => isFalse (fun hc => Except.noConfusion hc)
  | .error e, .error f =>
    if h : e = f then isTrue (by rw [h])
    else isFalse (fun hc => h (Except.error.inj hc))

/-- Concrete configuration for witnesses: 900 s access lifetime, 7 d
refresh lifetime. -/
def cfg0 : Config := ⟨"asec", "rsec", some 900, some (Duration.d 7)⟩

/-- Concrete refresh-token payload for witnesses. -/
def payload0 : TokenPayload :=
  ⟨some "u1", some "uuid-0", some 50, some 1000, none, []⟩

/-- Concrete refresh token for witnesses. -/
def rtok0 : Token := ⟨some payload0, "rsec"⟩

/-- Concrete stored user for witnesses. -/
def user1 : User :=
  ⟨"u1", "Alice", "a@x.com", some (bcrypt.hashSync "pw" 10),
    [SystemRole.USER]⟩

/-- Concrete user store for witnesses. -/
def users0 : List User := [user1]

/-- Allow-list witness: initial state admitting rtok0's jti. -/
def stA0 : SysState := ⟨[⟨"refresh:uuid-0", .str "u1", 500⟩], 3⟩

/-- Allow-list witness: the pair minted by the first refresh. -/
def respA1 : TokenResponse :=
  ⟨⟨some ⟨some "u1", some "uuid-3", some 100, some 1000, some "User",
      [SystemRole.USER]⟩, "asec"⟩,
   ⟨some ⟨some "u1", some "uuid-4", some 100, some 604900, none, []⟩,
      "rsec"⟩⟩

/-- Allow-list witness: state after the first refresh. -/
def stA1 : SysState := ⟨[⟨"refresh:uuid-4", .str "u1", 604900⟩], 5⟩

/-- Blacklist-variant counterexample: initial state. -/
def stB0 : SysState := ⟨[], 5⟩

/-- Blacklist-variant counterexample: pair minted by the first refresh. -/
def respB1 : TokenResponse :=
  ⟨⟨some ⟨some "u1", some "uuid-5", some 100, some 1000, some "Alice",
      [SystemRole.USER]⟩, "asec"⟩,
   ⟨some ⟨some "u1", some "uuid-6", some 100, some 604900, none, []⟩,
      "rsec"⟩⟩

/-- Blacklist-variant counterexample: state after the first refresh. -/
def stB1 : SysState :=
  ⟨[⟨"token_blacklist:uuid-0", .str "true", 1000⟩], 7⟩

/-- Blacklist-variant counterexample: pair minted by the replayed
refresh. -/
def respB2 : TokenResponse :=
  ⟨⟨some ⟨some "u1", some "uuid-7", some 100, some 1000, some "Alice",
      [SystemRole.USER]⟩, "asec"⟩,
   ⟨some ⟨some "u1", some "uuid-8", some 100, some 604900, none, []⟩,
      "rsec"⟩⟩

/-- Blacklist-variant counterexample: state after the replayed refresh. -/
def stB2 : SysState :=
  ⟨[⟨"token_blacklist:uuid-0", .str "true", 1000⟩], 9⟩

/-- Logout witness: access-token payload. -/
def paC2 : TokenPayload :=
  ⟨some "u1", some "ja", some 50, some 900, some "Alice",
    [SystemRole.USER]⟩

/-- Logout witness: refresh-token payload. -/
def prC2 : TokenPayload := ⟨some "u1", some "jr", some 50, some 1000, none, []⟩

/-- Logout witness: access token. -/
def atokC2 : Token := ⟨some paC2, "asec"⟩

/-- Logout witness: refresh token. -/
def rtokC2 : Token := ⟨some prC2, "rsec"⟩

/-- Logout witness: blacklist state after logging both tokens out. -/
def stC2 : RedisState :=
  [⟨"token_blacklist:jr", .str "true", 1000⟩,
   ⟨"token_blacklist:ja", .str "true", 900⟩]

/-- Password-change witness: the user store after the change. -/
def usersC3 : List User :=
  [⟨"u1", "Alice", "a@x.com", some (bcrypt.hashSync "pw2" 10),
    [SystemRole.USER]⟩]

/-- Password-change witness: the store holding the watermark written at
time 1000 with the 900 s access lifetime. -/
def stC3 : RedisState := [⟨"token_iat_available:u1", .num 1000, 1900⟩]

/-- Password-change witness: a payload minted after the change. -/
def pC3new : TokenPayload :=
  ⟨some "u1", some "jx", some 1500, some 2400, some "Alice",
    [SystemRole.USER]⟩

/-- Password-change witness: a token minted after the change. -/
def tokC3new : Token := ⟨some pC3new, "asec"⟩

lemma effTTL_pos (ttl : Option Nat) : 0 < effTTL ttl := by
  cases ttl with
  | none => simp [effTTL, defaultTTL]
  | some t =>
    by_cases h : t = 0
    · simp [effTTL, defaultTTL, h]
    · simp only [effTTL, defaultTTL, h, if_false]
      omega

lemma any_filter_ne_self (st : RedisState) (now : Nat) (k : String) :
    (st.filter (fun e => e.key ≠ k)).any
      (fun e => e.key == k && decide (now < e.expiresAt)) = false := by
  induction st with
  | nil => rfl
  | cons e t ih =>
    by_cases h : e.key = k
    · simpa [List.filter_cons, h] using ih
    · simpa [List.filter_cons, h] using ih

lemma any_filter_ne_other (st : RedisState) (now : Nat) (k k' : String)
    (hne : k' ≠ k) :
    (st.filter (fun e => e.key ≠ k)).any
      (fun e => e.key == k' && decide (now < e.expiresAt)) =
    st.any (fun e => e.key == k' && decide (now < e.expiresAt)) := by
  induction st with
  | nil => rfl
  | cons e t ih =>
    by_cases h : e.key = k
    · have h2 : (e.key == k') = false := by
        rw [beq_eq_false_iff_ne, h]
        exact fun hk => hne hk.symm
      rw [List.filter_cons]
      have h3 : decide (e.key ≠ k) = false := by simp [h]
      rw [h3]
      simp only [Bool.false_eq_true, if_false, List.any_cons, h2, ih,
        Bool.false_and, Bool.false_or]
    · rw [List.filter_cons]
      have h3 : decide (e.key ≠ k) = true := by simp [h]
      rw [h3]
      simp only [if_true, List.any_cons, ih]

lemma redisExists_delete_self (st : RedisState) (now : Nat) (k : String) :
    redisExists (redisDelete st k) now k = false := by
  simpa [redisExists, redisDelete] using any_filter_ne_self st now k

lemma redisExists_set_eq (st : RedisState) (now now' : Nat) (k : String)
    (v : RVal) (ttl : Option Nat) :
    redisExists (redisSet st now k v ttl) now' k =
      decide (now' < now + effTTL ttl) := by
  by_cases h : now' < now + effTTL ttl
  · simp [redisExists, redisSet, List.any_cons, h]
  · simpa [redisExists, redisSet, List.any_cons, h] using
      any_filter_ne_self st now' k

lemma redisExists_set_ne (st : RedisState) (now now' : Nat) (k k' : String)
    (v : RVal) (ttl : Option Nat) (hne : k' ≠ k) :
    redisExists (redisSet st now k v ttl) now' k' =
      redisExists st now' k' := by
  have h2 : (k == k') = false := by
    simp
    exact fun hk => hne hk.symm
  simpa [redisExists, redisSet, List.any_cons, h2] using
    any_filter_ne_other st now' k k' hne

lemma redisGet_set_self (st : RedisState) (now now' : Nat) (k : String)
    (v : RVal) (ttl : Option Nat) (h : now' < now + effTTL ttl) :
    redisGet (redisSet st now k v ttl) now' k = some v := by
  simp [redisGet, redisSet, List.find?, h]

lemma append_right_ne (s : String) {a b : String} (h : a ≠ b) :
    s ++ a ≠ s ++ b := by
  intro he
  apply h
  have h2 := congrArg String.data he
  simp [String.data_append] at h2
  exact String.ext h2

lemma append_left_ne_of_length (s t a : String)
    (h : s.length ≠ t.length) : s ++ a ≠ t ++ a := by
  intro he
  apply h
  have h2 := congrArg String.length he
  simp [String.length_append] at h2
  omega

/-- C6 (amended): AuthService.revokeToken writes the blacklist record with
TTL exp - now when the token has remaining lifetime, so the entry dies
exactly at the token's natural expiry; but when the computed TTL is 0 (an
already-expired token) the falsy-TTL branch of RedisService.set substitutes
the 3600 s default TTL, so the entry persists up to an hour past the
token's expiry. -/
theorem revokeToken_ttl (st : RedisState) (now e now' : Nat)
    (jti : String) :
    (now < e →
      (redisExists (AuthService.revokeToken st now jti (some e)) now'
          ("token_blacklist:" ++ jti) = true ↔ now' < e)) ∧
    (e ≤ now →
      redisExists (AuthService.revokeToken st now jti (some e)) now'
          ("token_blacklist:" ++ jti) =
        decide (now' < now + defaultTTL)) := by
  constructor
  · intro hlt
    unfold AuthService.revokeToken
    rw [Option.map_some', redisExists_set_eq]
    have heff : effTTL (some (e - now)) = e - now := by
      have : e - now ≠ 0 := by omega
      simp [effTTL, this]
    rw [heff]
    constructor
    · intro hd
      have := of_decide_eq_true hd
      omega
    · intro hd
      apply decide_eq_true
      omega
  · intro hle
    unfold AuthService.revokeToken
    rw [Option.map_some', redisExists_set_eq]
    have hz : e - now = 0 := by omega
    rw [hz]
    simp [effTTL]

/-- C6 counterexample: revoking a token that expires exactly now (computed
TTL 0) leaves a blacklist entry that is still alive 100 seconds after the
token's natural expiry, refuting the claim that no blacklist entry outlives
the revoked token. -/
theorem revokeToken_ttl_counterexample :
    redisExists (AuthService.revokeToken [] 100 "jti1" (some 100)) 200
      ("token_blacklist:jti1") = true := by decide

/-- C6 witness: the amended theorem instantiated at a token with 900 s of
remaining lifetime; the blacklist entry is alive one second before the
natural expiry and dead at it. -/
theorem revokeToken_ttl_witness :
    (redisExists (AuthService.revokeToken [] 100 "jti2" (some 1000)) 999
        ("token_blacklist:" ++ "jti2") = true ↔ (999 : Nat) < 1000) ∧
    (redisExists (AuthService.revokeToken [] 100 "jti2" (some 1000)) 1000
        ("token_blacklist:" ++ "jti2") = true ↔ (1000 : Nat) < 1000) :=
  ⟨(revokeToken_ttl [] 100 1000 999 "jti2").1 (by decide),
   (revokeToken_ttl [] 100 1000 1000 "jti2").1 (by decide)⟩

/-- C10: toPaginatedResponse always reports itemCount equal to the length
of the returned items, and replaces missing or falsy fields by the fixed
defaults: items by the empty list, totalItems and totalPages by 0,
itemsPerPage by 10, currentPage by 1. -/
theorem toPaginatedResponse_defaults {T : Type} (r : PaginateResult T) :
    (toPaginatedResponse r).meta.itemCount =
      (toPaginatedResponse r).items.length ∧
    (r.docs = none → (toPaginatedResponse r).items = []) ∧
    (r.totalDocs = none ∨ r.totalDocs = some 0 →
      (toPaginatedResponse r).meta.totalItems = 0) ∧
    (r.totalPages = none ∨ r.totalPages = some 0 →
      (toPaginatedResponse r).meta.totalPages = 0) ∧
    (r.limit = none ∨ r.limit = some 0 →
      (toPaginatedResponse r).meta.itemsPerPage = 10) ∧
    (r.page = none ∨ r.page = some 0 →
      (toPaginatedResponse r).meta.currentPage = 1) := by
  refine ⟨?_, ?_, ?_, ?_, ?_, ?_⟩
  · cases hd : r.docs with
    | none => simp [toPaginatedResponse, hd, jsOrNat]
    | some l =>
      by_cases hl : l.length = 0
      · simp [toPaginatedResponse, hd, jsOrNat, hl]
      · simp [toPaginatedResponse, hd, jsOrNat, hl]
  · intro hd
    simp [toPaginatedResponse, hd]
  · rintro (hd | hd) <;> simp [toPaginatedResponse, hd, jsOrNat]
  · rintro (hd | hd) <;> simp [toPaginatedResponse, hd, jsOrNat]
  · rintro (hd | hd) <;> simp [toPaginatedResponse, hd, jsOrNat]
  · rintro (hd | hd) <;> simp [toPaginatedResponse, hd, jsOrNat]

/-- C10 witness: the defaults at the fully-undefined paginate result. -/
theorem toPaginatedResponse_defaults_witness :
    (toPaginatedResponse
      (⟨none, none, none, none, none⟩ : PaginateResult Nat)).items = [] ∧
    (toPaginatedResponse
      (⟨none, none, none, none, none⟩ : PaginateResult Nat)).meta.itemsPerPage
      = 10 :=
  ⟨(toPaginatedResponse_defaults ⟨none, none, none, none, none⟩).2.1 rfl,
   (toPaginatedResponse_defaults
      ⟨none, none, none, none, none⟩).2.2.2.2.1 (Or.inl rfl)⟩

lemma guard_any_iff (reqL : List SystemRole) (u : GuardUser) :
    (reqL.any fun role =>
      match u.roles with
      | none => false
      | some rs => rs.contains role) = true ↔
    ∃ role ∈ reqL, role ∈ actualRoles (some u) := by
  cases hr : u.roles with
  | none => simp [actualRoles, hr]
  | some rs => simp [actualRoles, hr, List.any_eq_true]

lemma canActivate_eval (req : Option (List SystemRole))
    (user : Option GuardUser) :
    SystemRolesGuard.canActivate req user =
      if reqRoles req = [] ∨
          ∃ role ∈ reqRoles req, role ∈ actualRoles user
      then .ok true else .error .forbidden := by
  cases req with
  | none => simp [SystemRolesGuard.canActivate, reqRoles]
  | some reqL =>
    unfold SystemRolesGuard.canActivate
    dsimp only
    by_cases hEmpty : reqL.length = 0
    · have hnil : reqL = [] := List.length_eq_zero.mp hEmpty
      rw [if_pos hEmpty, if_pos (Or.inl (by simp [reqRoles, hnil]))]
    · have hne : reqRoles (some reqL) ≠ [] := by
        simp only [reqRoles, Option.getD_some]
        intro hc
        exact hEmpty (by simp [hc])
      rw [if_neg hEmpty]
      cases user with
      | none =>
        have hnone : ¬ (reqRoles (some reqL) = [] ∨
            ∃ role ∈ reqRoles (some reqL), role ∈ actualRoles none) := by
          rintro (hc | ⟨role, _, hin⟩)
          · exact hne hc
          · simp [actualRoles] at hin
        dsimp only
        rw [if_neg hnone]
      | some u =>
        dsimp only
        by_cases hAny : (reqL.any fun role =>
            match u.roles with
            | none => false
            | some rs => rs.contains role) = true
        · rw [if_pos hAny, if_pos (Or.inr (by
            simpa [reqRoles] using (guard_any_iff reqL u).mp hAny))]
        · rw [if_neg hAny, if_neg (by
            rintro (hc | hex)
            · exact hne hc
            · exact hAny ((guard_any_iff reqL u).mpr
                (by simpa [reqRoles] using hex)))]

lemma canActivate_ok_or_forbidden (req : Option (List SystemRole))
    (user : Option GuardUser) :
    SystemRolesGuard.canActivate req user = .ok true ∨
      SystemRolesGuard.canActivate req user = .error .forbidden := by
  rw [canActivate_eval]
  by_cases h : reqRoles req = [] ∨
      ∃ role ∈ reqRoles req, role ∈ actualRoles user
  · left; rw [if_pos h]
  · right; rw [if_neg h]

lemma canActivate_ok_iff (req : Option (List SystemRole))
    (user : Option GuardUser) :
    SystemRolesGuard.canActivate req user = .ok true ↔
      (reqRoles req = [] ∨
        ∃ role ∈ reqRoles req, role ∈ actualRoles user) := by
  rw [canActivate_eval]
  by_cases h : reqRoles req = [] ∨
      ∃ role ∈ reqRoles req, role ∈ actualRoles user
  · simp [h]
  · simp [h]

/-- C8: the guard passes vacuously when no role metadata or an empty role
list is required, otherwise allows exactly the requests whose actual role
set meets the required set and fails with Forbidden otherwise; and its
decision is a function of the two role sets alone. -/
theorem canActivate_spec (req : Option (List SystemRole))
    (user : Option GuardUser) :
    (SystemRolesGuard.canActivate req user = .ok true ∨
      SystemRolesGuard.canActivate req user = .error .forbidden) ∧
    (SystemRolesGuard.canActivate req user = .ok true ↔
      (reqRoles req = [] ∨
        ∃ role ∈ reqRoles req, role ∈ actualRoles user)) ∧
    (∀ req2 user2, reqRoles req2 = reqRoles req →
      actualRoles user2 = actualRoles user →
      SystemRolesGuard.canActivate req2 user2 =
        SystemRolesGuard.canActivate req user) := by
  refine ⟨canActivate_ok_or_forbidden req user,
    canActivate_ok_iff req user, ?_⟩
  intro req2 user2 hreq hact
  by_cases hok : reqRoles req = [] ∨
      ∃ role ∈ reqRoles req, role ∈ actualRoles user
  · have h1 : SystemRolesGuard.canActivate req user = .ok true :=
      (canActivate_ok_iff req user).mpr hok
    have h2 : SystemRolesGuard.canActivate req2 user2 = .ok true :=
      (canActivate_ok_iff req2 user2).mpr (by rw [hreq, hact]; exact hok)
    rw [h1, h2]
  · have h1 : SystemRolesGuard.canActivate req user ≠ .ok true := by
      intro hc
      exact hok ((canActivate_ok_iff req user).mp hc)
    have h2 : SystemRolesGuard.canActivate req2 user2 ≠ .ok true := by
      intro hc
      apply hok
      have := (canActivate_ok_iff req2 user2).mp hc
      rwa [hreq, hact] at this
    rcases canActivate_ok_or_forbidden req user with h3 | h3
    · exact absurd h3 h1
    · rcases canActivate_ok_or_forbidden req2 user2 with h4 | h4
      · exact absurd h4 h2
      · rw [h3, h4]

/-- C8 witness: a request with the USER role against a required
[ADMIN, USER] list is allowed, by the intersection criterion. -/
theorem canActivate_spec_witness :
    SystemRolesGuard.canActivate
      (some [SystemRole.ADMIN, SystemRole.USER])
      (some ⟨some [SystemRole.USER]⟩) = .ok true :=
  (canActivate_spec (some [SystemRole.ADMIN, SystemRole.USER])
      (some ⟨some [SystemRole.USER]⟩)).2.1.mpr
    (Or.inr ⟨SystemRole.USER, by decide, by decide⟩)

lemma jwtVerify_payload {t : Token} {secret : String} {now : Nat}
    {p : TokenPayload} (h : jwtVerify t secret now = some p) :
    t.payload = some p := by
  unfold jwtVerify at h
  cases hp : t.payload with
  | none =>
    rw [hp] at h
    exact absurd h (by simp)
  | some q =>
    rw [hp] at h
    dsimp only at h
    by_cases hc : (decide (t.secret = secret)
        && (match q.exp with
            | none => true
            | some e => decide (now < e))) = true
    · rw [if_pos hc] at h
      exact h
    · rw [if_neg hc] at h
      exact absurd h (by simp)

/-- C9: every access token minted by a successful
TokenService.refreshAccessToken carries the fixed placeholder display name
User and exactly the role set [USER], independent of the subject's stored
data, so a refresh does not preserve the original token's role claims. -/
theorem refreshAccessToken_fixed_identity (c : Config) (st : SysState)
    (now : Nat) (r : Token) (resp : TokenResponse) (st' : SysState)
    (h : TokenService.refreshAccessToken c st now r = .ok (resp, st')) :
    (jwtDecode resp.access_token).map TokenPayload.fullName =
      some (some "User") ∧
    (jwtDecode resp.access_token).map TokenPayload.roles =
      some [SystemRole.USER] := by
  unfold TokenService.refreshAccessToken at h
  cases hv : jwtVerify r c.JWT_REFRESH_SECRET now with
  | none =>
    rw [hv] at h
    exact absurd h (by simp)
  | some payload =>
    rw [hv] at h
    dsimp only at h
    by_cases hval : TokenService.validateRefreshToken st.redis now
        (jsStr payload.jti) = true
    · rw [if_pos hval] at h
      have h2 := Except.ok.inj h
      have h3 : (TokenService.generateTokens c
          ⟨TokenService.revokeRefreshToken st.redis (jsStr payload.jti),
            st.nextId⟩ now (jsStr payload.sub) "User"
          [SystemRole.USER]).1 = resp := congrArg Prod.fst h2
      rw [← h3]
      exact ⟨rfl, rfl⟩
    · rw [if_neg hval] at h
      exact absurd h (by simp)

/-- C9 witness: the fixed claims at a concrete successful refresh. -/
theorem refreshAccessToken_fixed_identity_witness :
    (jwtDecode respA1.access_token).map TokenPayload.fullName =
      some (some "User") ∧
    (jwtDecode respA1.access_token).map TokenPayload.roles =
      some [SystemRole.USER] :=
  refreshAccessToken_fixed_identity cfg0 stA0 100 rtok0 respA1 stA1
    (by decide)

/-- C1 (amended): refresh-token rotation in the allow-list TokenService
variant: a successful refresh deletes the presented jti's allowlist record
and admits only a fresh jti, so an immediate replay of the same refresh
token fails with Unauthorized. -/
theorem refreshAccessToken_rotation (c : Config) (st : SysState)
    (now : Nat) (r : Token) (resp : TokenResponse) (st' : SysState)
    (h : TokenService.refreshAccessToken c st now r = .ok (resp, st'))
    (hfresh : ∀ p, r.payload = some p →
      jsStr p.jti ≠ uuid (st.nextId + 1)) :
    TokenService.refreshAccessToken c st' now r = .error .unauthorized := by
  unfold TokenService.refreshAccessToken at h ⊢
  cases hv : jwtVerify r c.JWT_REFRESH_SECRET now with
  | none => rfl
  | some payload =>
    rw [hv] at h
    dsimp only at h ⊢
    by_cases hval : TokenService.validateRefreshToken st.redis now
        (jsStr payload.jti) = true
    · rw [if_pos hval] at h
      have h2 := Except.ok.inj h
      have hst : st' =
          (TokenService.generateTokens c
            ⟨TokenService.revokeRefreshToken st.redis (jsStr payload.jti),
              st.nextId⟩ now (jsStr payload.sub) "User"
            [SystemRole.USER]).2 :=
        (congrArg Prod.snd h2).symm
      have hkey : ("refresh:" ++ jsStr payload.jti) ≠
          ("refresh:" ++ uuid (st.nextId + 1)) :=
        append_right_ne _ (hfresh payload (jwtVerify_payload hv))
      have hval2 : TokenService.validateRefreshToken st'.redis now
          (jsStr payload.jti) = false := by
        rw [hst]
        show TokenService.validateRefreshToken
          (TokenService.storeRefreshToken c
            (TokenService.revokeRefreshToken st.redis (jsStr payload.jti))
            now (uuid (st.nextId + 1)) (jsStr payload.sub))
          now (jsStr payload.jti) = false
        unfold TokenService.validateRefreshToken
          TokenService.storeRefreshToken
        rw [redisExists_set_ne _ _ _ _ _ _ _ hkey]
        exact redisExists_delete_self st.redis now
          ("refresh:" ++ jsStr payload.jti)
      rw [if_neg (by simp [hval2])]
    · rw [if_neg hval] at h
      exact absurd h (by simp)

/-- C1 witness: the rotation theorem at a concrete allowlisted refresh
token: after the first refresh consumes it, the replay is Unauthorized. -/
theorem refreshAccessToken_rotation_witness :
    TokenService.refreshAccessToken cfg0 stA1 100 rtok0 =
      .error .unauthorized :=
  refreshAccessToken_rotation cfg0 stA0 100 rtok0 respA1 stA1 (by decide)
    (by
      intro p hp
      have hp2 : p = payload0 := by
        have : some payload0 = some p := hp
        exact (Option.some.inj this).symm
      rw [hp2]
      decide)

/-- C1 counterexample: in the blacklist AuthService variant the claim
fails: refreshToken blacklists the consumed jti but never consults the
blacklist, so replaying the same still-verifying refresh token succeeds a
second time instead of failing with Unauthorized. -/
theorem refreshToken_replay_counterexample :
    AuthService.refreshToken cfg0 users0 stB0 100 rtok0 =
      .ok (respB1, stB1) ∧
    AuthService.refreshToken cfg0 users0 stB1 100 rtok0 =
      .ok (respB2, stB2) := by
  constructor
  · decide
  · decide

lemma exists_after_revoke_outer (st : RedisState) (now now' : Nat)
    (jr : String) (er : Nat) (hltr : now' < er) :
    redisExists (AuthService.revokeToken st now jr (some er)) now'
      ("token_blacklist:" ++ jr) = true := by
  unfold AuthService.revokeToken
  rw [Option.map_some', redisExists_set_eq]
  apply decide_eq_true
  by_cases hc : er ≤ now
  · have hz : er - now = 0 := by omega
    rw [hz]
    simp only [effTTL, if_pos rfl, defaultTTL]
    omega
  · have hne : er - now ≠ 0 := by omega
    simp only [effTTL, hne, if_false]
    omega

lemma exists_after_revoke_both (st : RedisState) (now now' : Nat)
    (ja jr : String) (ea er : Nat) (ha : now' < ea) (hr : now' < er) :
    redisExists
      (AuthService.revokeToken
        (AuthService.revokeToken st now ja (some ea)) now jr (some er))
      now' ("token_blacklist:" ++ ja) = true := by
  by_cases hk : ("token_blacklist:" ++ ja) = ("token_blacklist:" ++ jr)
  · rw [hk]
    exact exists_after_revoke_outer _ now now' jr er hr
  · conv_lhs =>
      rw [show AuthService.revokeToken
          (AuthService.revokeToken st now ja (some ea)) now jr (some er) =
        redisSet (AuthService.revokeToken st now ja (some ea)) now
          ("token_blacklist:" ++ jr) (.str "true") (some (er - now))
        from rfl]
    rw [redisExists_set_ne _ _ _ _ _ _ _ hk]
    exact exists_after_revoke_outer st now now' ja ea ha

lemma validateToken_false_of_blacklisted (st : RedisState) (now : Nat)
    (t : Token) (p : TokenPayload) (hd : jwtDecode t = some p)
    (hbl : redisExists st now
      ("token_blacklist:" ++ jsStr p.jti) = true) :
    AuthService.validateToken st now t = false := by
  unfold AuthService.validateToken
  rw [hd]
  dsimp only
  cases hj : p.jti with
  | none => rfl
  | some j =>
    cases hs : p.sub with
    | none => rfl
    | some s =>
      dsimp only
      by_cases h0 : j = "" ∨ s = ""
      · rw [if_pos h0]
      · rw [hj] at hbl
        rw [if_neg h0,
          if_pos (show redisExists st now ("token_blacklist:" ++ j) = true
            from hbl)]

/-- C2: after the blacklist-variant logout succeeds on two decodable
tokens, validateToken rejects both of them at any later instant before
their natural expiry, because logout blacklists each token's jti and
validateToken rejects blacklisted (or jti/sub-less) payloads. -/
theorem logout_invalidates (st st' : RedisState) (now now' : Nat)
    (a r : Token) (pa pr : TokenPayload) (ea er : Nat)
    (ha : jwtDecode a = some pa) (hr : jwtDecode r = some pr)
    (hea : pa.exp = some ea) (her : pr.exp = some er)
    (hl : AuthService.logout st now a r = .ok st')
    (hlta : now' < ea) (hltr : now' < er) :
    AuthService.validateToken st' now' a = false ∧
    AuthService.validateToken st' now' r = false := by
  unfold AuthService.logout at hl
  rw [ha, hr] at hl
  dsimp only at hl
  rw [hea, her] at hl
  have hst := Except.ok.inj hl
  subst hst
  constructor
  · exact validateToken_false_of_blacklisted _ _ _ pa ha
      (exists_after_revoke_both st now now' (jsStr pa.jti) (jsStr pr.jti)
        ea er hlta hltr)
  · exact validateToken_false_of_blacklisted _ _ _ pr hr
      (exists_after_revoke_outer _ now now' (jsStr pr.jti) er hltr)

/-- C2 witness: a concrete logout of an access/refresh pair after which
both tokens are rejected at time 150, well before their expiries. -/
theorem logout_invalidates_witness :
    AuthService.validateToken stC2 150 atokC2 = false ∧
    AuthService.validateToken stC2 150 rtokC2 = false :=
  logout_invalidates [] stC2 100 150 atokC2 rtokC2 paC2 prC2 900 1000
    rfl rfl rfl rfl (by decide) (by decide) (by decide)

lemma validateTokenS_eq (st : RedisState) (now : Nat) (tok : Token) :
    AuthService.validateTokenS st now tok =
      (AuthService.validateToken st now tok, st) := by
  unfold AuthService.validateTokenS AuthService.validateToken
  dsimp only
  repeat' split
  all_goals rfl

lemma validateToken_false_of_missing (st : RedisState) (now : Nat)
    (tok : Token) (p : TokenPayload) (hd : jwtDecode tok = some p)
    (hns : p.jti = none ∨ p.sub = none) :
    AuthService.validateToken st now tok = false := by
  unfold AuthService.validateToken
  rw [hd]
  dsimp only
  rcases hns with hn | hn
  · rw [hn]
  · cases hj : p.jti with
    | none => rfl
    | some j => rw [hn]

lemma validateToken_false_of_watermark (st : RedisState) (now : Nat)
    (tok : Token) (p : TokenPayload) (j s : String) (i w : Nat)
    (hd : jwtDecode tok = some p) (hj : p.jti = some j)
    (hs : p.sub = some s) (hi : p.iat = some i) (hne : i ≠ 0)
    (hg : redisGetNum st now ("token_iat_available:" ++ s) = some w)
    (hw : w ≠ 0) (hlt : i < w) :
    AuthService.validateToken st now tok = false := by
  unfold AuthService.validateToken
  rw [hd]
  dsimp only
  rw [hj, hs]
  dsimp only
  by_cases h0 : j = "" ∨ s = ""
  · rw [if_pos h0]
  · rw [if_neg h0]
    by_cases hbl : redisExists st now ("token_blacklist:" ++ j) = true
    · rw [if_pos hbl]
    · rw [if_neg hbl, hi]
      dsimp only
      rw [if_neg hne, hg]
      dsimp only
      rw [if_pos ⟨hw, hlt⟩]

/-- C5: validateToken is side-effect-free and deterministic: the
state-passing form returns the store unchanged, agrees with the pure
function, and is idempotent; and for the ordinary invalid-token cases
(undecodable payload, missing jti or sub, blacklisted jti, issuedAt before
the watermark) it returns false rather than raising. -/
theorem validateToken_pure (st : RedisState) (now : Nat) (tok : Token) :
    (AuthService.validateTokenS st now tok).2 = st ∧
    (AuthService.validateTokenS st now tok).1 =
      AuthService.validateToken st now tok ∧
    AuthService.validateTokenS (AuthService.validateTokenS st now tok).2
      now tok = AuthService.validateTokenS st now tok ∧
    (jwtDecode tok = none → AuthService.validateToken st now tok = false) ∧
    (∀ p, jwtDecode tok = some p → (p.jti = none ∨ p.sub = none) →
      AuthService.validateToken st now tok = false) ∧
    (∀ p j, jwtDecode tok = some p → p.jti = some j →
      redisExists st now ("token_blacklist:" ++ j) = true →
      AuthService.validateToken st now tok = false) ∧
    (∀ p j s i w, jwtDecode tok = some p → p.jti = some j →
      p.sub = some s → p.iat = some i → i ≠ 0 →
      redisGetNum st now ("token_iat_available:" ++ s) = some w →
      w ≠ 0 → i < w →
      AuthService.validateToken st now tok = false) := by
  have he := validateTokenS_eq st now tok
  refine ⟨by rw [he], by rw [he], by rw [he]; exact he, ?_, ?_, ?_, ?_⟩
  · intro hd
    unfold AuthService.validateToken
    rw [hd]
  · exact fun p hd hns =>
      validateToken_false_of_missing st now tok p hd hns
  · intro p j hd hj hbl
    refine validateToken_false_of_blacklisted st now tok p hd ?_
    rw [hj]
    exact hbl
  · exact fun p j s i w hd hj hs hi hne hg hw hlt =>
      validateToken_false_of_watermark st now tok p j s i w hd hj hs hi
        hne hg hw hlt

/-- C5 witness: purity and the watermark rejection instantiated at a
concrete store holding a watermark newer than the token's issuedAt. -/
theorem validateToken_pure_witness :
    (AuthService.validateTokenS
      [⟨"token_iat_available:u1", RVal.num 900, 2000⟩] 1000 atokC2).2 =
      [⟨"token_iat_available:u1", RVal.num 900, 2000⟩] ∧
    AuthService.validateToken
      [⟨"token_iat_available:u1", RVal.num 900, 2000⟩] 1000 atokC2 =
      false :=
  ⟨(validateToken_pure
      [⟨"token_iat_available:u1", RVal.num 900, 2000⟩] 1000 atokC2).1,
   (validateToken_pure
      [⟨"token_iat_available:u1", RVal.num 900, 2000⟩] 1000
        atokC2).2.2.2.2.2.2 paC2 "ja" "u1" 50 900 rfl rfl rfl rfl
      (by decide) (by decide) (by decide) (by decide)⟩

/-- C7: register fails with Conflict and creates nothing when the email is
taken; otherwise it appends exactly one user storing the bcrypt cost-10
hash of the password, and returns that user's document with the
hashedPassword field projected away. -/
theorem register_spec (users : List User) (payload : RegisterDto) :
    ((∃ u ∈ users, u.email = payload.email) →
      AuthService.register users payload = (.error .conflict, users)) ∧
    ((∀ u ∈ users, u.email ≠ payload.email) →
      ∃ newUser,
        (AuthService.register users payload).2 = users ++ [newUser] ∧
        newUser.fullName = payload.fullName ∧
        newUser.email = payload.email ∧
        newUser.hashedPassword =
          some (bcrypt.hashSync payload.password 10) ∧
        (AuthService.register users payload).1 =
          .ok ⟨newUser._id, newUser.fullName, newUser.email,
            newUser.roles⟩) := by
  constructor
  · intro hex
    have hb : UserService.existsByEmail users payload.email = true := by
      unfold UserService.existsByEmail
      rw [List.any_eq_true]
      obtain ⟨u, hu, he⟩ := hex
      exact ⟨u, hu, by simp [he]⟩
    unfold AuthService.register
    rw [if_pos hb]
  · intro hall
    have hb : ¬ UserService.existsByEmail users payload.email = true := by
      unfold UserService.existsByEmail
      rw [List.any_eq_true]
      rintro ⟨u, hu, he⟩
      exact hall u hu (by simpa using he)
    unfold AuthService.register
    rw [if_neg hb]
    exact ⟨_, rfl, rfl, rfl, rfl, rfl⟩

/-- C7 witness: registering the already-present email fails with Conflict
and leaves the store unchanged. -/
theorem register_spec_witness :
    AuthService.register users0 ⟨"Bob", "a@x.com", "pw2"⟩ =
      (.error .conflict, users0) :=
  (register_spec users0 ⟨"Bob", "a@x.com", "pw2"⟩).1 (by decide)

/-- C4 (amended): the TokenService-backed logout never raises (its
try/catch yields success on every input) and, whenever the refresh token
verifies, its jti's allowlist record is gone afterwards; the two-token
blacklist-variant logout revokes both tokens whenever both payloads
decode; but (see the counterexample) it raises a TypeError when a decode
fails. -/
theorem logout_best_effort (c : Config) (st : RedisState) (now : Nat)
    (r : Token) :
    AuthServiceV2.logout c st now r =
      .ok (TokenService.logout c st now r) ∧
    (∀ p, jwtVerifyIgnoreExp r c.JWT_REFRESH_SECRET = some p →
      redisExists (TokenService.logout c st now r) now
        ("refresh:" ++ jsStr p.jti) = false) ∧
    (∀ st2 now2 a2 r2 pa pr, jwtDecode a2 = some pa →
      jwtDecode r2 = some pr →
      AuthService.logout st2 now2 a2 r2 = .ok
        (AuthService.revokeToken
          (AuthService.revokeToken st2 now2 (jsStr pa.jti) pa.exp)
          now2 (jsStr pr.jti) pr.exp)) := by
  refine ⟨rfl, ?_, ?_⟩
  · intro p hv
    have hne : ("refresh:" ++ jsStr p.jti) ≠
        ("blacklist:" ++ jsStr p.jti) :=
      append_left_ne_of_length _ _ _ (by decide)
    unfold TokenService.logout
    rw [hv]
    dsimp only
    cases he : p.exp with
    | none =>
      unfold TokenService.revokeRefreshToken
      exact redisExists_delete_self st now _
    | some e =>
      dsimp only
      by_cases hc : e ≠ 0 ∧ now < e
      · rw [if_pos hc]
        unfold TokenService.revokeAccessToken
        rw [redisExists_set_ne _ _ _ _ _ _ _ hne]
        unfold TokenService.revokeRefreshToken
        exact redisExists_delete_self st now _
      · rw [if_neg hc]
        unfold TokenService.revokeRefreshToken
        exact redisExists_delete_self st now _
  · intro st2 now2 a2 r2 pa pr hda hdr
    unfold AuthService.logout
    rw [hda, hdr]

/-- C4 witness: after the TokenService-backed logout of a verifying token
the allowlist record of its jti is gone, and the wrapper reports
success. -/
theorem logout_best_effort_witness :
    redisExists
      (TokenService.logout cfg0 [⟨"refresh:uuid-0", RVal.str "u1", 500⟩]
        100 rtok0) 100 ("refresh:" ++ jsStr payload0.jti) = false :=
  (logout_best_effort cfg0 [⟨"refresh:uuid-0", RVal.str "u1", 500⟩]
    100 rtok0).2.1 payload0 (by decide)

/-- C4 counterexample: the two-token blacklist-variant logout raises a
TypeError to its caller when a token fails to decode (the jti property
access on a null payload), instead of completing successfully. -/
theorem logout_raises_counterexample :
    AuthService.logout [] 0 ⟨none, ""⟩ ⟨none, ""⟩ = .error .typeError :=
  rfl

lemma validateToken_true_of_fresh (st : RedisState) (now : Nat)
    (tok : Token) (p : TokenPayload) (j s : String) (i w : Nat)
    (hd : jwtDecode tok = some p) (hj : p.jti = some j) (hjne : j ≠ "")
    (hs : p.sub = some s) (hsne : s ≠ "")
    (hbl : redisExists st now ("token_blacklist:" ++ j) = false)
    (hi : p.iat = some i)
    (hg : redisGetNum st now ("token_iat_available:" ++ s) = some w)
    (hge : ¬ (w ≠ 0 ∧ i < w)) :
    AuthService.validateToken st now tok = true := by
  unfold AuthService.validateToken
  rw [hd]
  dsimp only
  rw [hj, hs]
  dsimp only
  rw [if_neg (by
    rintro (hc | hc)
    · exact hjne hc
    · exact hsne hc)]
  rw [if_neg (by rw [hbl]; exact Bool.false_ne_true), hi]
  dsimp only
  by_cases hz : i = 0
  · rw [if_pos hz]
  · rw [if_neg hz, hg]
    dsimp only
    rw [if_neg hge]

/-- C3: after a successful changePassword the watermark record for the
subject holds the current time; every decodable non-blacklisted token of
that subject with a truthy issuedAt strictly before the watermark is
rejected by validateToken, while tokens issued at or after the watermark
remain valid; changePassword is NotFound when the identity is missing and
Unauthorized when the current password does not match the stored hash. -/
theorem changePassword_spec (c : Config) (users : List User)
    (st : RedisState) (now : Nat) (userId cur new : String)
    (user : User) (hp : String) (users' : List User) (st' : RedisState)
    (hfind : UserService.findOne users userId = some user)
    (hhp : user.hashedPassword = some hp) (hpne : hp ≠ "")
    (hcmp : bcrypt.compareSync cur hp = true)
    (hch : AuthService.changePassword c users st now userId cur new =
      .ok (users', st')) :
    redisGet st' now ("token_iat_available:" ++ userId) =
      some (.num now) ∧
    (∀ tok p j i, jwtDecode tok = some p → p.jti = some j → j ≠ "" →
      p.sub = some userId → userId ≠ "" →
      redisExists st' now ("token_blacklist:" ++ j) = false →
      p.iat = some i → i ≠ 0 → i < now →
      AuthService.validateToken st' now tok = false) ∧
    (∀ tok p j i, jwtDecode tok = some p → p.jti = some j → j ≠ "" →
      p.sub = some userId → userId ≠ "" →
      redisExists st' now ("token_blacklist:" ++ j) = false →
      p.iat = some i → now ≤ i →
      AuthService.validateToken st' now tok = true) ∧
    (∀ users2, UserService.findOne users2 userId = none →
      AuthService.changePassword c users2 st now userId cur new =
        .error .notFound) ∧
    (∀ users2 u2 hp2 cur2,
      UserService.findOne users2 userId = some u2 →
      u2.hashedPassword = some hp2 → hp2 ≠ "" →
      bcrypt.compareSync cur2 hp2 = false →
      AuthService.changePassword c users2 st now userId cur2 new =
        .error .unauthorized) := by
  unfold AuthService.changePassword at hch
  rw [hfind] at hch
  dsimp only at hch
  rw [hhp] at hch
  dsimp only at hch
  rw [if_neg hpne, if_neg (by
    intro hc
    exact hc hcmp)] at hch
  have hpair := Except.ok.inj hch
  have hst : st' = redisSet st now ("token_iat_available:" ++ userId)
      (.num now) c.JWT_ACCESS_EXPIRES_IN := by
    have := congrArg Prod.snd hpair
    exact this.symm
  have hget : redisGet st' now ("token_iat_available:" ++ userId) =
      some (.num now) := by
    rw [hst]
    exact redisGet_set_self st now now _ _ _ (by
      have := effTTL_pos c.JWT_ACCESS_EXPIRES_IN
      omega)
  have hgetnum : redisGetNum st' now ("token_iat_available:" ++ userId) =
      some now := by
    unfold redisGetNum
    rw [hget]
  refine ⟨hget, ?_, ?_, ?_, ?_⟩
  · intro tok p j i hd hj hjne hsub hune hbl hi hine hilt
    exact validateToken_false_of_watermark st' now tok p j userId i now
      hd hj hsub hi hine hgetnum (by omega) hilt
  · intro tok p j i hd hj hjne hsub hune hbl hi hile
    exact validateToken_true_of_fresh st' now tok p j userId i now
      hd hj hjne hsub hune hbl hi hgetnum (by
        rintro ⟨_, hlt⟩
        omega)
  · intro users2 hn
    unfold AuthService.changePassword
    rw [hn]
  · intro users2 u2 hp2 cur2 hfind2 hhp2 hp2ne hcmp2
    unfold AuthService.changePassword
    rw [hfind2]
    dsimp only
    rw [hhp2]
    dsimp only
    rw [if_neg hp2ne, if_pos (by
      rw [hcmp2]
      exact Bool.false_ne_true)]

/-- C3 witness: after a concrete password change at time 1000 the old
token (issuedAt 50) is rejected and a token issued at 1500 remains
valid. -/
theorem changePassword_spec_witness :
    AuthService.validateToken stC3 1000 atokC2 = false ∧
    AuthService.validateToken stC3 1000 tokC3new = true :=
  ⟨(changePassword_spec cfg0 users0 [] 1000 "u1" "pw" "pw2" user1
      (bcrypt.hashSync "pw" 10) usersC3 stC3 (by decide) rfl (by decide)
      (by decide) (by decide)).2.1 atokC2 paC2 "ja" 50 rfl rfl
      (by decide) rfl (by decide) (by decide) rfl (by decide) (by decide),
   (changePassword_spec cfg0 users0 [] 1000 "u1" "pw" "pw2" user1
      (bcrypt.hashSync "pw" 10) usersC3 stC3 (by decide) rfl (by decide)
      (by decide) (by decide)).2.2.1 tokC3new pC3new "jx" 1500 rfl rfl
      (by decide) rfl (by decide) (by decide) rfl (by decide)⟩

end Portfolio
